import Mathlib

/-!
Verification development for the Video-Downloader repository (src/VidDwn.py).

The Python source is shallowly embedded below. Pure helpers become Lean
functions on `String`/`List Char`; the GUI state, the filesystem and the
history file become an explicit `AppState` record; the effects of external
systems (yt-dlp, the network, the archive extractors) are supplied as oracle
inputs describing whether the corresponding call succeeded.

String operations from Python are modelled over `String.data` (a `List Char`)
so that every definition is executable and kernel-reducible:
  - `pyStrip`  models `str.strip()` on the ASCII whitespace set;
  - `pyLower`  models `str.lower()` (ASCII case folding; the claims under
    study only involve ASCII domain strings);
  - `strEndsWith` models `str.endswith`.
-/

set_option autoImplicit false

/-- ASCII whitespace, as matched by the regex class backslash-s in Python
(space, tab, newline, carriage return, vertical tab, form feed). -/
def isRegexSpace (c : Char) : Bool :=
  c = ' ' || c = '\t' || c = '\n' || c = '\r' || c = '\x0b' || c = '\x0c'

/-- A character admitted by the character class `[^:/\s]` of the domain
regex in `validate_url` (VidDwn.py line 480). -/
def isDomainChar (c : Char) : Bool :=
  !(c = ':' || c = '/' || isRegexSpace c)

/-- Models Python `str.strip()`: drop ASCII whitespace from both ends. -/
def pyStrip (s : String) : String :=
  ⟨((s.data.dropWhile isRegexSpace).reverse.dropWhile isRegexSpace).reverse⟩

/-- Models Python `str.lower()` (ASCII case folding). -/
def pyLower (s : String) : String :=
  ⟨s.data.map Char.toLower⟩

/-- Models Python `str.endswith`. -/
def strEndsWith (s suf : String) : Bool :=
  suf.data.isSuffixOf s.data

/-- Models the Python substring test `k in l` on character lists: `k`
occurs contiguously somewhere in `l` (the empty string occurs in every
string). -/
def pyIn : List Char → List Char → Bool
  | k, [] => k.isEmpty
  | k, c :: t => k.isPrefixOf (c :: t) || pyIn k t

/-- The group captured by `re.match` with the pattern
`^(?:http[s]?://)?([^:/\s]+)` (VidDwn.py lines 480-481), `none` when the
regex does not match.  The optional scheme group is greedy, so the engine
first consumes a literal `https://` or `http://` prefix and then takes the
maximal nonempty run of `[^:/\s]` characters; if that run is empty the
engine backtracks and retries with the scheme group matching nothing,
taking the maximal nonempty run from the start of the string. -/
def extractDomain (url : String) : Option String :=
  let cs := url.data
  let rest :=
    if "https://".data.isPrefixOf cs then cs.drop 8
    else if "http://".data.isPrefixOf cs then cs.drop 7
    else cs
  let dom := rest.takeWhile isDomainChar
  if dom ≠ [] then some ⟨dom⟩
  else
    let dom0 := cs.takeWhile isDomainChar
    if dom0 ≠ [] then some ⟨dom0⟩ else none

/-- The `SUPPORTED_PLATFORMS` class attribute (VidDwn.py lines 141-149), in
declaration order; Python dicts iterate in insertion order. -/
def SUPPORTED_PLATFORMS : List (String × String) :=
  [("youtube.com", "YouTube"),
   ("youtu.be", "YouTube"),
   ("twitter.com", "X (Twitter)"),
   ("x.com", "X (Twitter)"),
   ("fb.watch", "Facebook"),
   ("facebook.com", "Facebook")]

/-- The loop `for key in self.SUPPORTED_PLATFORMS: if key in domain: return
self.SUPPORTED_PLATFORMS[key]` (VidDwn.py lines 484-486): return the value
of the first pair whose key is a substring of `dom`. -/
def lookupPlatform : List (String × String) → String → Option String
  | [], _ => none
  | (k, v) :: rest, dom =>
    if pyIn k.data dom.data then some v else lookupPlatform rest dom

/-- `YouTubeDownloader.validate_url` (VidDwn.py lines 478-487). -/
def validate_url (url : String) : Option String :=
  match extractDomain url with
  | none => none
  | some d => lookupPlatform SUPPORTED_PLATFORMS (pyLower d)

/-- The first key of `SUPPORTED_PLATFORMS` (in declaration order) that
occurs as a substring of `dom`. -/
def firstMatchingKey (dom : String) : Option String :=
  (SUPPORTED_PLATFORMS.map Prod.fst).find? (fun k => pyIn k.data dom.data)

/-- Transcription of the words of the specification claim for
`validate_url`: extract the domain via the regex, lowercase it, and return
the platform name associated with the first key of the table (in its
declaration order) that occurs as a substring of the domain; `none` when no
key occurs or the regex does not match.  To be compared with the
source-derived `validate_url`. -/
def validate_url_spec (url : String) : Option String :=
  match extractDomain url with
  | none => none
  | some d =>
    match firstMatchingKey (pyLower d) with
    | none => none
    | some k => SUPPORTED_PLATFORMS.lookup k

/-- `YouTubeDownloader.get_format_option` (VidDwn.py lines 489-498), as a
function of the current text of the format dropdown. -/
def get_format_option (selectedFormat : String) : String :=
  if selectedFormat = "mp3" then "mp3"
  else if selectedFormat = "wav" then "wav"
  else if selectedFormat = "mov" then "mov"
  else "mp4"

/-- The nine characters removed by `re.sub` in the filename sanitization of
`start_download` (VidDwn.py line 535). -/
def badFilenameChar (c : Char) : Bool :=
  c = '\\' || c = '/' || c = '*' || c = '?' || c = ':' ||
  c = '\"' || c = '<' || c = '>' || c = '|'

/-- The scan performed by `re.sub(pattern, "", title)`: each character
matching the class is replaced by the empty string, every other character
is kept. -/
def reSubRemoveBad : List Char → List Char
  | [] => []
  | c :: cs => if badFilenameChar c then reSubRemoveBad cs else c :: reSubRemoveBad cs

/-- `filename = re.sub(r'[\\/*?:"<>|]', "", title)` (VidDwn.py line 535). -/
def sanitize_title (title : String) : String :=
  ⟨reSubRemoveBad title.data⟩

/-- The extension chosen in `start_download` (VidDwn.py lines 528-533) from
the export format. -/
def ext_for (export_format : String) : String :=
  if export_format = "mp3" ∨ export_format = "wav" then export_format
  else if export_format = "mov" then "mov"
  else "mp4"

/-- The basename `f"{filename}.{ext}"` built in `start_download`
(VidDwn.py line 536). -/
def expected_basename (title export_format : String) : String :=
  sanitize_title title ++ "." ++ ext_for export_format

/-- Models `os.path.join` (POSIX semantics) for the uses in this program,
where the second component never names an absolute path. -/
def joinPath (d n : String) : String :=
  if n.data.head? = some '/' then n
  else if d = "" then n
  else if d.data.getLast? = some '/' then d ++ n
  else d ++ "/" ++ n

/-- A minimal JSON value model, enough for what `json.dump`/`json.load`
exchange through the history file (the file is only ever written by
`save_history`, which serializes a list of strings). -/
inductive Json where
  | str : String → Json
  | num : Int → Json
  | arr : List Json → Json
  | null : Json

/-- What iterating a parsed JSON value with `for filepath in history` in
`load_history` yields: the elements of an array, the one-character strings
of a string, and a TypeError (`none`) for non-iterable values. -/
def pyIter : Json → Option (List Json)
  | .arr l => some l
  | .str s => some (s.data.map (fun c => Json.str (String.mk [c])))
  | _ => none

/-- The body of the `for filepath in history: self.history_list.addItem(filepath)`
loop of `load_history`: items are appended one by one; a non-string element
raises a TypeError inside the loop (caught by the surrounding `except`), so
the items already appended remain. -/
def addAll : List String → List Json → List String
  | acc, [] => acc
  | acc, .str s :: rest => addAll (acc ++ [s]) rest
  | acc, _ :: _ => acc

/-- The state touched by the operations under study: the widget fields of
`YouTubeDownloader` that `start_download` and the history slots mutate, the
in-memory history list widget, the contents of `download_history.json`
(`none` when the file does not exist), and the set of existing files. -/
structure AppState where
  downloadEnabled : Bool
  cancelEnabled : Bool
  deleteEnabled : Bool
  statusText : String
  progressValue : Int
  historyList : List String
  file : Option Json
  fs : List String

/-- The widget state right after `setup_ui`: download enabled, cancel
disabled, delete enabled, status `Idle`, progress 0, empty history. -/
def initState (file : Option Json) (fs : List String) : AppState :=
  ⟨true, false, true, "Idle", 0, [], file, fs⟩

/-- `YouTubeDownloader.save_history` (VidDwn.py lines 463-471): serialize
every item of the history list widget, in order, to the history file. -/
def save_history (s : AppState) : AppState :=
  { s with file := some (Json.arr (s.historyList.map Json.str)) }

/-- `YouTubeDownloader.load_history` (VidDwn.py lines 451-461): when the
history file exists, parse it and add each entry to the history list
widget; every exception is caught, leaving the state as the loop left it. -/
def load_history (s : AppState) : AppState :=
  match s.file with
  | none => s
  | some j =>
    match pyIter j with
    | none => s
    | some items => { s with historyList := addAll s.historyList items }

/-- `YouTubeDownloader.add_to_history` (VidDwn.py lines 643-652): append the
completed download path to the widget, re-serialize the whole list, and
restore the idle button states. -/
def add_to_history (s : AppState) (filepath : String) : AppState :=
  let s1 := save_history { s with historyList := s.historyList ++ [filepath] }
  { s1 with downloadEnabled := true, cancelEnabled := false, deleteEnabled := true,
            statusText := "Download finished." }

/-- `YouTubeDownloader.delete_selected_file` (VidDwn.py lines 685-706) for
the single selected row `sel` (the list widget uses single selection):
when the file exists and `os.remove` succeeds, the row is removed and the
whole list re-serialized; on a missing file, a failed removal, or no
selection, the state is left unchanged apart from a message box. -/
def delete_selected_file (s : AppState) (sel : Option Nat) (removeOk : Bool) : AppState :=
  match sel with
  | none => s
  | some i =>
    match s.historyList[i]? with
    | none => s
    | some fp =>
      if fp ∈ s.fs then
        if removeOk then
          save_history { s with fs := s.fs.erase fp,
                                historyList := s.historyList.eraseIdx i }
        else s
      else s

/-- One entry of the `postprocessors` list of the yt-dlp option dictionary
(VidDwn.py lines 581-598); absent dict keys are `none`.  The field
`preferedformat` reproduces the spelling used by the source. -/
structure PostProcessor where
  key : String
  preferredcodec : Option String
  preferredquality : Option String
  preferedformat : Option String
deriving DecidableEq

/-- The yt-dlp option dictionary built by `start_download`
(VidDwn.py lines 571-601). -/
structure YdlOpts where
  outtmpl : String
  quiet : Bool
  noprogress : Bool
  ffmpegLocation : Option String
  format : String
  postprocessors : List PostProcessor
deriving DecidableEq

/-- The construction of `ydl_opts` in `start_download` (VidDwn.py lines
571-601), dispatching on `format_choice = self.get_format_option()`. -/
def build_ydl_opts (directory : String) (ffmpegLocation : Option String)
    (format_choice : String) : YdlOpts :=
  let outtmpl := joinPath directory "%(title)s.%(ext)s"
  if format_choice = "mp3" then
    { outtmpl := outtmpl, quiet := true, noprogress := true,
      ffmpegLocation := ffmpegLocation, format := "bestaudio/best",
      postprocessors := [⟨"FFmpegExtractAudio", some "mp3", some "192", none⟩] }
  else if format_choice = "wav" then
    { outtmpl := outtmpl, quiet := true, noprogress := true,
      ffmpegLocation := ffmpegLocation, format := "bestaudio/best",
      postprocessors := [⟨"FFmpegExtractAudio", some "wav", some "192", none⟩] }
  else if format_choice = "mov" then
    { outtmpl := outtmpl, quiet := true, noprogress := true,
      ffmpegLocation := ffmpegLocation, format := "bestvideo+bestaudio/best",
      postprocessors := [⟨"FFmpegVideoConvertor", none, none, some "mov"⟩] }
  else
    { outtmpl := outtmpl, quiet := true, noprogress := true,
      ffmpegLocation := ffmpegLocation, format := "bestvideo+bestaudio/best",
      postprocessors := [] }

/-- How a call to `YouTubeDownloader.start_download` returns: which message
box it showed, or that it reached the point of starting the worker thread
with the given options. -/
inductive StartOutcome where
  | warnedEmptyUrl
  | warnedEmptyDir
  | warnedUnsupported
  | infoError (msg : String)
  | skippedExisting
  | removeFailed (filepath : String)
  | workerStarted (opts : YdlOpts) (url : String) (formatChoice : String)
      (expectedFilepath : String)
deriving DecidableEq

/-- The state mutations performed once `start_download` commits to starting
a download (VidDwn.py lines 564-612): disable the download and delete
buttons, enable cancel, set the status text and reset the progress bar, then
hand a new worker the option dictionary. -/
def startWorker (s : AppState) (directory url format_choice platform_name : String)
    (ffmpegLocation : Option String) (expected : String) : AppState × StartOutcome :=
  ({ s with downloadEnabled := false, cancelEnabled := true, deleteEnabled := false,
            statusText := "Starting download from " ++ platform_name ++ "...",
            progressValue := 0 },
   .workerStarted (build_ydl_opts directory ffmpegLocation format_choice)
     url format_choice expected)

/-- `YouTubeDownloader.start_download` (VidDwn.py lines 500-612).
`urlField` and `dirField` are the current texts of the two input widgets and
`selectedFormat` the format dropdown text; `infoResult` is the outcome of
`ydl.extract_info` (the optional title on success, the exception message on
failure); `overwriteYes` is the answer to the overwrite question and
`removeOk` whether `os.remove` of the existing file succeeds. -/
def start_download (s : AppState) (urlField dirField selectedFormat : String)
    (ffmpegLocation : Option String) (infoResult : Except String (Option String))
    (overwriteYes removeOk : Bool) : AppState × StartOutcome :=
  let url := pyStrip urlField
  let directory := pyStrip dirField
  let export_format := get_format_option selectedFormat
  if url = "" then (s, .warnedEmptyUrl)
  else if directory = "" then (s, .warnedEmptyDir)
  else
    match validate_url url with
    | none => (s, .warnedUnsupported)
    | some platform_name =>
      match infoResult with
      | .error e => (s, .infoError e)
      | .ok titleOpt =>
        let title := titleOpt.getD "downloaded_video"
        let expected := joinPath directory (expected_basename title export_format)
        if expected ∈ s.fs then
          if overwriteYes = false then (s, .skippedExisting)
          else if removeOk = false then (s, .removeFailed expected)
          else startWorker { s with fs := s.fs.erase expected }
                 directory url export_format platform_name ffmpegLocation expected
        else startWorker s directory url export_format platform_name ffmpegLocation expected

/-- The four class-level `pyqtSignal` declarations of `DownloadWorker`
(VidDwn.py lines 710-713), as emitted events. -/
inductive Signal where
  | progress (percent : Int)
  | error (msg : String)
  | downloadComplete (filepath : String)
  | finished
deriving DecidableEq

/-- One call of the progress hook registered by `DownloadWorker.run`
(VidDwn.py lines 725-736), classified by the status field of the dict it
receives.  For a downloading event, `percent` stands for the value
`int(float(d.get('_percent_str', '0.0%').strip('%')))` computed by the hook
(with a ValueError defaulting to 0); no claim under study depends on that
numeric conversion, so the converted integer is taken as the event payload. -/
inductive HookEvent where
  | downloading (percent : Int)
  | finishedHook
  | otherHook

/-- How the `self.downloader.download([self.url])` call returns
(VidDwn.py lines 740-746): normally, with a `utils.DownloadError`, or with
any other exception. -/
inductive LibResult where
  | ok
  | downloadError (msg : String)
  | unexpectedError (msg : String)

/-- The signals emitted by the progress hook over a run: `progress` for each
downloading event, `download_complete` with the stored final filepath on a
finished event, nothing otherwise. -/
def hookSignals : List HookEvent → String → List Signal
  | [], _ => []
  | .downloading p :: rest, fp => Signal.progress p :: hookSignals rest fp
  | .finishedHook :: rest, fp => Signal.downloadComplete fp :: hookSignals rest fp
  | .otherHook :: rest, fp => hookSignals rest fp

/-- `DownloadWorker.run` (VidDwn.py lines 722-749) as the sequence of
signals it emits, given the hook events delivered during the library call
and how that call returned: the two `except` clauses each emit one `error`
signal with a prefixed message, and the `finally` clause emits `finished`
last in every case. -/
def DownloadWorker.run (events : List HookEvent) (res : LibResult)
    (finalFilepath : String) : List Signal :=
  hookSignals events finalFilepath ++
    (match res with
     | .ok => []
     | .downloadError m => [Signal.error ("Download failed: " ++ m)]
     | .unexpectedError m => [Signal.error ("An unexpected error occurred: " ++ m)]) ++
    [Signal.finished]

/-- The environment probed and mutated by `download_and_install_ffmpeg`
(VidDwn.py lines 26-127): the lowercased `platform.system()` value, whether
the `ffmpeg_temp` directory already exists and whether `os.makedirs` would
succeed, whether the download and the archive extraction succeed, the
directory of the located ffmpeg executable (`none` when `os.walk` finds
none), and the current PATH variable with the platform path separator. -/
structure FfmpegEnv where
  system : String
  extractDirExists : Bool
  mkdirOk : Bool
  downloadOk : Bool
  extractOk : Bool
  ffmpegDir : Option String
  path : String
  pathsep : String

/-- An environment in which every step of the ffmpeg installation
succeeds. -/
def envInstallOk : FfmpegEnv :=
  ⟨"darwin", true, true, true, true, some "/ffdir", "/usr/bin", ":"⟩

/-- The `ffmpeg_url` selected from the operating system
(VidDwn.py lines 33-46); `none` on an unsupported system (which makes the
function return False immediately). -/
def ffmpegUrlFor (system : String) : Option String :=
  if system = "windows" then
    some "https://www.gyan.dev/ffmpeg/builds/ffmpeg-release-essentials.zip"
  else if system = "linux" then
    some "https://johnvansickle.com/ffmpeg/releases/ffmpeg-release-amd64-static.tar.xz"
  else if system = "darwin" then
    some "https://evermeet.cx/ffmpeg/ffmpeg.zip"
  else none

/-- The executable-location step and PATH mutation of
`download_and_install_ffmpeg` (VidDwn.py lines 88-122): False when no
ffmpeg executable is found under the extraction directory, otherwise the
executable directory is appended to PATH and True returned. -/
def locateStep (env : FfmpegEnv) : Except String (Bool × String) :=
  match env.ffmpegDir with
  | none => .ok (false, env.path)
  | some dir => .ok (true, env.path ++ env.pathsep ++ dir)

/-- `download_and_install_ffmpeg` (VidDwn.py lines 26-127), returning the
result value together with the final PATH, or `.error` for an exception
escaping to the caller.  The `os.makedirs` call at lines 49-50 happens
before the `try` block, so a failure there propagates; every later failure
is caught and turned into False. -/
def download_and_install_ffmpeg (env : FfmpegEnv) : Except String (Bool × String) :=
  match ffmpegUrlFor env.system with
  | none => .ok (false, env.path)
  | some url =>
    if !env.extractDirExists && !env.mkdirOk then .error "os.makedirs raised OSError"
    else if !env.downloadOk then .ok (false, env.path)
    else if strEndsWith url ".zip" then
      if !env.extractOk then .ok (false, env.path) else locateStep env
    else if strEndsWith url ".tar.xz" then
      if !env.extractOk then .ok (false, env.path) else locateStep env
    else .ok (false, env.path)

theorem lookupPlatform_eq_find (l : List (String × String)) (d : String)
    (hnd : (l.map Prod.fst).Nodup) :
    lookupPlatform l d =
      match (l.map Prod.fst).find? (fun k => pyIn k.data d.data) with
      | none => none
      | some k => l.lookup k := by
  induction l with
  | nil => rfl
  | cons p t ih =>
    obtain ⟨k, v⟩ := p
    rw [List.map_cons, List.nodup_cons] at hnd
    rw [List.map_cons]
    dsimp only at hnd ⊢
    by_cases h : pyIn k.data d.data = true
    · have hf : List.find? (fun k0 => pyIn k0.data d.data) (k :: List.map Prod.fst t)
          = some k := List.find?_cons_of_pos _ h
      rw [hf]
      simp only [lookupPlatform, h, if_true, List.lookup_cons, beq_self_eq_true]
    · have hf : List.find? (fun k0 => pyIn k0.data d.data) (k :: List.map Prod.fst t)
          = List.find? (fun k0 => pyIn k0.data d.data) (List.map Prod.fst t) :=
        List.find?_cons_of_neg _ h
      rw [hf]
      simp only [lookupPlatform, h, if_false, Bool.false_eq_true]
      rw [ih hnd.2]
      cases hf' : (t.map Prod.fst).find? (fun k => pyIn k.data d.data) with
      | none => rfl
      | some k' =>
        have hk' : k' ∈ t.map Prod.fst := List.mem_of_find?_eq_some hf'
        have hne : (k' == k) = false :=
          beq_eq_false_iff_ne.mpr (fun e => hnd.1 (e ▸ hk'))
        simp only [List.lookup_cons, hne]

theorem lookupPlatform_isSome_of_mem (l : List (String × String)) (d k : String)
    (v : String) (hmem : (k, v) ∈ l) (hsub : pyIn k.data d.data = true) :
    (lookupPlatform l d).isSome := by
  induction l with
  | nil => cases hmem
  | cons p t ih =>
    obtain ⟨k', v'⟩ := p
    rw [lookupPlatform]
    by_cases h : pyIn k'.data d.data = true
    · rw [if_pos h]; rfl
    · rw [if_neg h]
      rcases List.mem_cons.mp hmem with he | ht
      · cases he; exact absurd hsub h
      · exact ih ht

/-- C1: for every URL string, `validate_url` extracts the domain with the
regex `^(?:http[s]?://)?([^:/\s]+)`, lowercases it, and returns the platform
name associated with the first key of SUPPORTED_PLATFORMS (in declaration
order) that occurs as a substring of the domain; it returns none when no key
occurs in the domain or the regex does not match. -/
theorem validate_url_matches_spec (url : String) :
    validate_url url = validate_url_spec url := by
  rw [validate_url, validate_url_spec]
  cases extractDomain url with
  | none => rfl
  | some d =>
    simp only [firstMatchingKey]
    exact lookupPlatform_eq_find SUPPORTED_PLATFORMS (pyLower d) (by decide)

/-- C8 counterexample: the claim as stated says that whenever the extracted
lowercased domain contains a table key as a substring, `validate_url`
returns the platform name of that key.  The domain `youtube.com.x.com`
contains the key `x.com`, whose associated platform name is `X (Twitter)`,
yet `validate_url` returns `YouTube` (the platform of the earlier key
`youtube.com`, which the domain also contains). -/
theorem validate_url_first_key_overrides :
    extractDomain "https://youtube.com.x.com/v" = some "youtube.com.x.com"
    ∧ ("x.com", "X (Twitter)") ∈ SUPPORTED_PLATFORMS
    ∧ pyIn "x.com".data (pyLower "youtube.com.x.com").data = true
    ∧ validate_url "https://youtube.com.x.com/v" = some "YouTube"
    ∧ validate_url "https://youtube.com.x.com/v" ≠ some "X (Twitter)" := by
  refine ⟨by decide, by decide, by decide, by decide, by decide⟩

/-- C8 (amended): substring matching over-accepts.  There is a URL whose
domain is not a supported platform domain but which `validate_url`
classifies as supported (the domain `linux.com` contains the key `x.com`
and is classified as `X (Twitter)`); and for every URL whose extracted
lowercased domain contains some table key as a substring, the first
contained key in declaration order exists and `validate_url` returns
exactly the platform name the table associates with that first key - in
particular a supported platform name rather than none. -/
theorem validate_url_substring_overacceptance :
    (validate_url "https://linux.com/news" = some "X (Twitter)"
     ∧ "linux.com" ∉ SUPPORTED_PLATFORMS.map Prod.fst)
    ∧ (∀ url d k, extractDomain url = some d →
        k ∈ SUPPORTED_PLATFORMS.map Prod.fst →
        pyIn k.data (pyLower d).data = true →
        ∃ k0, firstMatchingKey (pyLower d) = some k0
          ∧ validate_url url = SUPPORTED_PLATFORMS.lookup k0
          ∧ (validate_url url).isSome) := by
  refine ⟨⟨by decide, by decide⟩, ?_⟩
  intro url d k hdom hk hsub
  have hfind : (firstMatchingKey (pyLower d)).isSome := by
    simp only [firstMatchingKey, List.find?_isSome]
    exact ⟨k, hk, hsub⟩
  obtain ⟨k0, hk0⟩ := Option.isSome_iff_exists.mp hfind
  have hval : validate_url url = SUPPORTED_PLATFORMS.lookup k0 := by
    have hk0f := hk0
    simp only [firstMatchingKey] at hk0f
    rw [validate_url, hdom]
    show lookupPlatform SUPPORTED_PLATFORMS (pyLower d) = SUPPORTED_PLATFORMS.lookup k0
    rw [lookupPlatform_eq_find SUPPORTED_PLATFORMS (pyLower d) (by decide), hk0f]
  refine ⟨k0, hk0, hval, ?_⟩
  rcases List.mem_map.mp hk with ⟨⟨ka, va⟩, hmem, hfst⟩
  rw [validate_url, hdom]
  exact lookupPlatform_isSome_of_mem SUPPORTED_PLATFORMS (pyLower d) ka va hmem
    (by rw [show ka = k from hfst]; exact hsub)

/-- Witness for the amended C8 theorem at a concrete input: the URL
`http://linux.com/news` has extracted domain `linux.com`, which contains the
key `x.com`; the first contained key exists and `validate_url` returns the
platform name the table associates with it. -/
theorem validate_url_substring_overacceptance_witness :
    ∃ k0, firstMatchingKey (pyLower "linux.com") = some k0
      ∧ validate_url "http://linux.com/news" = SUPPORTED_PLATFORMS.lookup k0
      ∧ (validate_url "http://linux.com/news").isSome :=
  validate_url_substring_overacceptance.2 "http://linux.com/news" "linux.com" "x.com"
    (by decide) (by decide) (by decide)

theorem reSubRemoveBad_eq_filter (l : List Char) :
    reSubRemoveBad l = l.filter (fun c => !badFilenameChar c) := by
  induction l with
  | nil => rfl
  | cons c cs ih =>
    rw [reSubRemoveBad, List.filter_cons]
    by_cases h : badFilenameChar c = true
    · simp [h, ih]
    · simp [Bool.of_not_eq_true h, ih]

theorem stringAppend_data (s t : String) : (s ++ t).data = s.data ++ t.data := by
  cases s; cases t; rfl

theorem ext_for_choices (fmt : String) :
    ext_for fmt = "mp3" ∨ ext_for fmt = "wav" ∨ ext_for fmt = "mov" ∨ ext_for fmt = "mp4" := by
  rw [ext_for]
  by_cases h3 : fmt = "mp3"
  · simp [h3]
  · by_cases hw : fmt = "wav"
    · simp [hw, h3]
    · by_cases hv : fmt = "mov" <;> simp [h3, hw, hv]

/-- C10: for every video title, the filename computed in `start_download`
is the title with every occurrence of the nine characters in the class
`[\\/*?:"<>|]` removed and nothing else changed, followed by a dot and the
chosen extension; hence the basename of the expected file path contains none
of those nine characters, whatever the title. -/
theorem sanitized_filename_removes_bad_chars (title fmt : String) :
    sanitize_title title = ⟨title.data.filter (fun c => !badFilenameChar c)⟩
    ∧ (∀ c ∈ (expected_basename title fmt).data, badFilenameChar c = false) := by
  constructor
  · rw [sanitize_title, reSubRemoveBad_eq_filter]
  · intro c hc
    rw [expected_basename, stringAppend_data, stringAppend_data] at hc
    rcases List.mem_append.mp hc with hc1 | hc2
    · rcases List.mem_append.mp hc1 with hs | hd
      · rw [sanitize_title, reSubRemoveBad_eq_filter] at hs
        have := List.of_mem_filter hs
        simpa using this
      · have : c = '.' := by simpa using hd
        subst this; decide
    · rcases ext_for_choices fmt with he | he | he | he <;> rw [he] at hc2
      · exact (show ∀ x ∈ ("mp3" : String).data, badFilenameChar x = false by decide) c hc2
      · exact (show ∀ x ∈ ("wav" : String).data, badFilenameChar x = false by decide) c hc2
      · exact (show ∀ x ∈ ("mov" : String).data, badFilenameChar x = false by decide) c hc2
      · exact (show ∀ x ∈ ("mp4" : String).data, badFilenameChar x = false by decide) c hc2

/-- Witness for C10 at a concrete input: the title `a/b:c` sanitizes to
`abc`, and the first character of the expected basename `abc.mp4` is not
one of the removed characters. -/
theorem sanitized_filename_removes_bad_chars_witness :
    sanitize_title "a/b:c" = "abc" ∧ badFilenameChar 'a' = false :=
  ⟨(sanitized_filename_removes_bad_chars "a/b:c" "mp4").1.trans (by decide),
   (sanitized_filename_removes_bad_chars "a/b:c" "mp4").2 'a' (by decide)⟩

/-- C9: `get_format_option` is total and its range is exactly the four
strings mp3, wav, mov, mp4: it returns the dropdown text when that text is
mp3, wav or mov, and returns mp4 for every other string; consequently the
yt-dlp option dictionary built in `start_download` always takes one of the
four shapes determined by this value. -/
theorem get_format_option_total_four_values (s dir : String) (loc : Option String) :
    (get_format_option s = "mp3" ∨ get_format_option s = "wav"
      ∨ get_format_option s = "mov" ∨ get_format_option s = "mp4")
    ∧ ((s = "mp3" ∨ s = "wav" ∨ s = "mov") → get_format_option s = s)
    ∧ (¬(s = "mp3" ∨ s = "wav" ∨ s = "mov") → get_format_option s = "mp4")
    ∧ (build_ydl_opts dir loc (get_format_option s) = build_ydl_opts dir loc "mp3"
       ∨ build_ydl_opts dir loc (get_format_option s) = build_ydl_opts dir loc "wav"
       ∨ build_ydl_opts dir loc (get_format_option s) = build_ydl_opts dir loc "mov"
       ∨ build_ydl_opts dir loc (get_format_option s) = build_ydl_opts dir loc "mp4") := by
  by_cases h3 : s = "mp3"
  · simp [get_format_option, h3]
  · by_cases hw : s = "wav"
    · simp [get_format_option, h3, hw]
    · by_cases hv : s = "mov"
      · simp [get_format_option, h3, hw, hv]
      · simp [get_format_option, h3, hw, hv]

/-- Witness for C9 at a concrete input: `flac` is none of mp3, wav, mov, so
`get_format_option` maps it to mp4. -/
theorem get_format_option_total_four_values_witness :
    get_format_option "flac" = "mp4" :=
  (get_format_option_total_four_values "flac" "/dl" none).2.2.1 (by decide)

theorem addAll_map_str (l : List String) (acc : List String) :
    addAll acc (l.map Json.str) = acc ++ l := by
  induction l generalizing acc with
  | nil => simp [addAll]
  | cons s t ih => rw [List.map_cons, addAll, ih, List.append_assoc]; rfl

/-- C2: round-trip of the history log.  For every state of the history
list widget, running `save_history` (which serializes all list items to the
JSON history file) and then `load_history` on a fresh (empty) list widget
reading that file reproduces exactly the same sequence of entries, in the
same order. -/
theorem save_load_history_roundtrip (s : AppState) :
    (load_history { save_history s with historyList := [] }).historyList
      = s.historyList := by
  rw [save_history, load_history]
  simp only [pyIter]
  rw [addAll_map_str]
  rfl

/-- The persisted history file holds exactly the serialization of the
current in-memory history list. -/
def fileMatchesList (s : AppState) : Prop :=
  s.file = some (Json.arr (s.historyList.map Json.str))

/-- C3: every mutation of the history list re-serializes the whole list.
`add_to_history` always leaves the file equal to the serialization of the
full current list, and `delete_selected_file` preserves that agreement in
every case (after a successful deletion the whole shrunken list is
rewritten; when nothing is deleted neither side changes). -/
theorem history_file_reflects_list :
    (∀ (s : AppState) (fp : String), fileMatchesList (add_to_history s fp))
    ∧ (∀ (s : AppState) (sel : Option Nat) (removeOk : Bool), fileMatchesList s →
        fileMatchesList (delete_selected_file s sel removeOk)) := by
  constructor
  · intro s fp
    rw [add_to_history, save_history, fileMatchesList]
  · intro s sel removeOk h
    rw [delete_selected_file.eq_def]
    split
    · exact h
    · split
      · exact h
      · split
        · split
          · exact rfl
          · exact h
        · exact h

/-- Witness for C3 at a concrete input: a state whose file matches its
one-entry list keeps that agreement through `delete_selected_file`. -/
theorem history_file_reflects_list_witness :
    fileMatchesList (delete_selected_file
      ⟨true, false, true, "Idle", 0, ["/dl/a.mp4"],
       some (Json.arr [Json.str "/dl/a.mp4"]), ["/dl/a.mp4"]⟩ (some 0) true) :=
  history_file_reflects_list.2
    ⟨true, false, true, "Idle", 0, ["/dl/a.mp4"],
     some (Json.arr [Json.str "/dl/a.mp4"]), ["/dl/a.mp4"]⟩ (some 0) true rfl

theorem finished_not_mem_hookSignals (events : List HookEvent) (fp : String) :
    Signal.finished ∉ hookSignals events fp := by
  induction events with
  | nil => simp [hookSignals]
  | cons e t ih => cases e <;> simp [hookSignals, ih]

/-- C5: for every execution of `DownloadWorker.run`, when the call into the
download library raises (a DownloadError or any other exception), the
exception is caught and surfaced as one `error` signal carrying the message,
and the run still completes normally, emitting its trailing `finished`
signal instead of propagating the exception. -/
theorem worker_run_surfaces_errors (events : List HookEvent) (fp m : String) :
    DownloadWorker.run events (.downloadError m) fp
      = hookSignals events fp
          ++ [Signal.error ("Download failed: " ++ m), Signal.finished]
    ∧ DownloadWorker.run events (.unexpectedError m) fp
      = hookSignals events fp
          ++ [Signal.error ("An unexpected error occurred: " ++ m), Signal.finished] := by
  constructor <;> (rw [DownloadWorker.run.eq_def]; simp)

/-- C6: `DownloadWorker` exposes exactly four notifications (progress,
error, download completion, finished), and every execution of
`DownloadWorker.run` emits the `finished` signal exactly once, as the last
signal, whether the download succeeds, the library raises a DownloadError,
or an unexpected exception occurs. -/
theorem worker_run_finished_last_and_four_signals
    (events : List HookEvent) (res : LibResult) (fp : String) :
    (∃ l, DownloadWorker.run events res fp = l ++ [Signal.finished]
        ∧ Signal.finished ∉ l)
    ∧ (∀ s : Signal, (∃ n, s = Signal.progress n) ∨ (∃ m, s = Signal.error m)
        ∨ (∃ q, s = Signal.downloadComplete q) ∨ s = Signal.finished) := by
  constructor
  · refine ⟨hookSignals events fp ++
      (match res with
       | .ok => []
       | .downloadError m => [Signal.error ("Download failed: " ++ m)]
       | .unexpectedError m => [Signal.error ("An unexpected error occurred: " ++ m)]),
      ?_, ?_⟩
    · rw [DownloadWorker.run.eq_def]
    · intro hmem
      rcases List.mem_append.mp hmem with h1 | h2
      · exact finished_not_mem_hookSignals events fp h1
      · cases res <;> simp at h2
  · intro s
    cases s with
    | progress n => exact Or.inl ⟨n, rfl⟩
    | error m => exact Or.inr (Or.inl ⟨m, rfl⟩)
    | downloadComplete q => exact Or.inr (Or.inr (Or.inl ⟨q, rfl⟩))
    | finished => exact Or.inr (Or.inr (Or.inr rfl))

/-- C7: `start_download` rejects invalid input without side effects.  When
the stripped URL field is empty, or the stripped directory field is empty,
or `validate_url` classifies the URL to no supported platform, it shows one
of the three warnings and returns with the state unchanged: no button is
toggled, no video information is fetched, no worker is started, and the
history list and filesystem are untouched. -/
theorem start_download_rejects_invalid_without_side_effects
    (s : AppState) (urlField dirField selectedFormat : String)
    (loc : Option String) (infoResult : Except String (Option String))
    (overwriteYes removeOk : Bool)
    (h : pyStrip urlField = "" ∨ pyStrip dirField = ""
         ∨ validate_url (pyStrip urlField) = none) :
    (start_download s urlField dirField selectedFormat loc infoResult
        overwriteYes removeOk).1 = s
    ∧ ((start_download s urlField dirField selectedFormat loc infoResult
          overwriteYes removeOk).2 = .warnedEmptyUrl
       ∨ (start_download s urlField dirField selectedFormat loc infoResult
          overwriteYes removeOk).2 = .warnedEmptyDir
       ∨ (start_download s urlField dirField selectedFormat loc infoResult
          overwriteYes removeOk).2 = .warnedUnsupported) := by
  by_cases hu : pyStrip urlField = ""
  · simp [start_download, hu]
  · by_cases hd : pyStrip dirField = ""
    · simp [start_download, hu, hd]
    · have hv : validate_url (pyStrip urlField) = none := by
        rcases h with h | h | h
        · exact absurd h hu
        · exact absurd h hd
        · exact h
      simp [start_download, hu, hd, hv]

/-- Witness for C7 at a concrete input: an empty URL field on the initial
state is rejected with the empty-URL warning and no state change. -/
theorem start_download_rejects_invalid_witness :
    (start_download (initState none []) "" "/dl" "mp4" none (Except.ok none)
        false false).1 = initState none []
    ∧ ((start_download (initState none []) "" "/dl" "mp4" none (Except.ok none)
          false false).2 = .warnedEmptyUrl
       ∨ (start_download (initState none []) "" "/dl" "mp4" none (Except.ok none)
          false false).2 = .warnedEmptyDir
       ∨ (start_download (initState none []) "" "/dl" "mp4" none (Except.ok none)
          false false).2 = .warnedUnsupported) :=
  start_download_rejects_invalid_without_side_effects (initState none []) "" "/dl"
    "mp4" none (Except.ok none) false false (Or.inl rfl)

/-- C4 counterexample: the claim says `download_and_install_ffmpeg` never
raises to its caller, but the `os.makedirs` call for the temporary
extraction directory (VidDwn.py lines 49-50) sits before the `try` block:
on a supported system, when the directory does not exist and creating it
fails, the OSError propagates instead of a False return. -/
theorem ffmpeg_install_raises_on_mkdir_failure :
    download_and_install_ffmpeg
      ⟨"linux", false, false, true, true, some "/ffdir", "/p", ":"⟩
      = .error "os.makedirs raised OSError" := by
  rfl

/-- C4 (amended): `download_and_install_ffmpeg` is best-effort except for
the temporary-directory creation, which happens before the `try` block and
whose failure is the one exception that propagates to the caller.  In every
other case it returns without raising: False on an unsupported operating
system, a download failure, an extraction failure, an unsupported archive
format, or a missing executable after extraction; True exactly when the
system is supported and download, extraction and executable location all
succeed, in which case (and only then) the directory of the executable is
appended to the PATH variable, which is otherwise left unchanged. -/
theorem ffmpeg_install_best_effort_amended (env : FfmpegEnv) :
    ((∃ e, download_and_install_ffmpeg env = .error e) ↔
       ((ffmpegUrlFor env.system).isSome ∧ env.extractDirExists = false
        ∧ env.mkdirOk = false))
    ∧ (∀ b p, download_and_install_ffmpeg env = .ok (b, p) →
        ((b = true ↔ ((ffmpegUrlFor env.system).isSome ∧ env.downloadOk = true
            ∧ env.extractOk = true ∧ env.ffmpegDir.isSome))
         ∧ (b = false → p = env.path)
         ∧ (∀ dir, env.ffmpegDir = some dir → b = true →
             p = env.path ++ env.pathsep ++ dir))) := by
  obtain ⟨sys, ede, mk, dl, ex, fd, path, ps⟩ := env
  have hz1 : strEndsWith
      "https://www.gyan.dev/ffmpeg/builds/ffmpeg-release-essentials.zip"
      ".zip" = true := by decide
  have hz2 : strEndsWith
      "https://johnvansickle.com/ffmpeg/releases/ffmpeg-release-amd64-static.tar.xz"
      ".zip" = false := by decide
  have hz3 : strEndsWith
      "https://johnvansickle.com/ffmpeg/releases/ffmpeg-release-amd64-static.tar.xz"
      ".tar.xz" = true := by decide
  have hz4 : strEndsWith "https://evermeet.cx/ffmpeg/ffmpeg.zip" ".zip" = true := by
    decide
  by_cases hw : sys = "windows"
  · subst hw
    cases ede <;> cases mk <;> cases dl <;> cases ex <;> rcases fd with _ | dir <;>
      simp [download_and_install_ffmpeg, ffmpegUrlFor, locateStep, hz1]
  · by_cases hl : sys = "linux"
    · subst hl
      cases ede <;> cases mk <;> cases dl <;> cases ex <;> rcases fd with _ | dir <;>
        simp [download_and_install_ffmpeg, ffmpegUrlFor, locateStep, hz2, hz3]
    · by_cases hm : sys = "darwin"
      · subst hm
        cases ede <;> cases mk <;> cases dl <;> cases ex <;> rcases fd with _ | dir <;>
          simp [download_and_install_ffmpeg, ffmpegUrlFor, locateStep, hz4]
      · cases ede <;> cases mk <;> cases dl <;> cases ex <;> rcases fd with _ | dir <;>
          simp [download_and_install_ffmpeg, ffmpegUrlFor, locateStep, hw, hl, hm]

/-- Witness for the amended C4 theorem at a concrete input: in an
environment where every step succeeds, the function reports success and the
returned PATH is the old PATH with the executable directory appended. -/
theorem ffmpeg_install_best_effort_amended_witness :
    download_and_install_ffmpeg envInstallOk = .ok (true, "/usr/bin:/ffdir")
    ∧ ("/usr/bin:/ffdir" : String) = envInstallOk.path ++ envInstallOk.pathsep ++ "/ffdir" :=
  ⟨by rfl,
   ((ffmpeg_install_best_effort_amended envInstallOk).2 true "/usr/bin:/ffdir"
      (by rfl)).2.2 "/ffdir" rfl rfl⟩
